import Mathlib

/-!
Shallow embedding of `src/main.py` (warrior096-bot).

The module embeds: configuration loading (`load_config`), the per-user
throttle gate (`throttled`), the lazily cached uploaded-audio handle
(`AUDIO_FILE_ID`), and the four message handlers (`on_start`, `on_help`,
`on_stats`, `on_keyword`).  Platform sends (`message.answer`,
`message.answer_audio`, `bot.send_message`) are network calls; each handler
invocation takes a `SendEnv` fixing the outcome of each call it may attempt,
and returns, besides the new state, the trace of attempted platform calls and
an `Except` value: `.error e` models a Python exception escaping the handler.
Python truthiness tests (`if AUDIO_FILE_ID:`, `if cfg.admin_id:`) are embedded
exactly: `None` and `""` (resp. `0`) are falsy.
-/

namespace Warrior096

/-- ASCII whitespace, as stripped by Python `str.strip()`. -/
def pySpace (c : Char) : Bool :=
  c = ' ' || c = '\t' || c = '\n' || c = '\r' || c = '\x0b' || c = '\x0c'

/-- Python `str.strip()`: drop leading and trailing whitespace. -/
def pyStrip (s : String) : String :=
  ⟨((s.data.dropWhile pySpace).reverse.dropWhile pySpace).reverse⟩

/-- Python `str.lower()` on ASCII text: lowercase every character. -/
def pyLower (s : String) : String :=
  ⟨s.data.map Char.toLower⟩

/-- Python `str.isdigit()` on ASCII text: nonempty and decimal digits only. -/
def pyIsDigit (s : String) : Bool :=
  !s.data.isEmpty && s.data.all Char.isDigit

/-- Python `int(...)` applied to a decimal digit string. -/
def digitsToInt (s : String) : ℤ :=
  ((s.data.foldl (fun a c => 10 * a + (c.toNat - 48)) 0 : ℕ) : ℤ)

/-- Truthiness of `Optional[str]`: `None` and `""` are falsy. -/
def pyTruthyStr : Option String → Bool
  | some s => s != ""
  | none => false

/-- Truthiness of `Optional[int]`: `None` and `0` are falsy. -/
def pyTruthyInt : Option ℤ → Bool
  | some a => a != 0
  | none => false

/-- `Config` dataclass from src/main.py:15-21. -/
structure Config where
  token : String
  admin_id : Option ℤ
  pre_save_url : String
  channel_url : String
  audio_path : String := "audio/096_WARRIOR_hotline_8k_mono.wav"
  deriving DecidableEq, Repr

/-- The process environment: `os.getenv` returns `none` for an unset key. -/
abbrev OsEnv := String → Option String

/-- `os.getenv(key, d)`. -/
def getenv (env : OsEnv) (key d : String) : String :=
  (env key).getD d

/-- `load_config` from src/main.py:24-32.  `raise RuntimeError` is `.error`. -/
def load_config (env : OsEnv) : Except String Config :=
  let token := pyStrip (getenv env "BOT_TOKEN" "")
  if token = "" then .error "BOT_TOKEN is not set"
  else
    let admin := pyStrip (getenv env "ADMIN_ID" "")
    let admin_id := if pyIsDigit admin then some (digitsToInt admin) else none
    let pre := getenv env "PRE_SAVE_URL" "https://example.com/presave"
    let chan := getenv env "CHANNEL_URL" "https://t.me/your_channel"
    .ok { token := token, admin_id := admin_id, pre_save_url := pre,
          channel_url := chan }

/-- `main()` (src/main.py:121-132) loads config first; on failure no `Bot`
is constructed, i.e. startup fails before any connection attempt. -/
inductive StartupResult where
  | failed (msg : String)
  | connected (cfg : Config)
  deriving DecidableEq, Repr

/-- The startup prefix of `main()`: `load_config` then `Bot(token=...)`. -/
def main_startup (env : OsEnv) : StartupResult :=
  match load_config env with
  | .error m => .failed m
  | .ok cfg => .connected cfg

/-- `LAST_ACTION_AT` map (src/main.py:37): user id to last-action time. -/
abbrev ThrottleMap := ℤ → Option ℚ

/-- `THROTTLE_SECONDS = 5` (src/main.py:39). -/
def THROTTLE_SECONDS : ℚ := 5

/-- `throttled(user_id)` from src/main.py:42-48, with the ambient
`time.time()` value and the global map passed explicitly; returns the Python
result and the map after the call. -/
def throttled (m : ThrottleMap) (user_id : ℤ) (now : ℚ) : Bool × ThrottleMap :=
  let last := (m user_id).getD 0
  if now - last < THROTTLE_SECONDS then (true, m)
  else (false, fun u => if u = user_id then some now else m u)

/-- `hbold` from aiogram markdown utils: HTML bold wrapping. -/
def hbold (s : String) : String := "<b>" ++ s ++ "</b>"

/-- `WELCOME_TEXT` (src/main.py:60-64). -/
def WELCOME_TEXT : String :=
  "Код 096 активирован.\n" ++ "Дата: " ++ hbold "24.08" ++ "\n" ++
  "Слушай. Нажми кнопку."

/-- `HELP_TEXT` (src/main.py:65). -/
def HELP_TEXT : String := "Напиши 096 — получишь голос. Кнопки ниже — ссылки."

/-- The generic retry message sent on audio failure (src/main.py:88). -/
def RETRY_TEXT : String := "Не удалось отправить голос. Попробуй ещё раз."

/-- The audio caption (src/main.py:81,85,113,116). -/
def AUDIO_CAPTION : String := "096 WARRIOR — голос"

/-- The denial message of `on_stats` (src/main.py:101). -/
def DENY_TEXT : String := "Команда только для админа."

/-- The stats reply `f"Users: {len(USERS)}"` (src/main.py:99). -/
def statsText (n : ℕ) : String := "Users: " ++ toString n

/-- The admin diagnostic `f"Ошибка аудио: {e}"` (src/main.py:90). -/
def audioErrText (e : String) : String := "Ошибка аудио: " ++ e

/-- Outcome of one platform call: success (with the `file_id` of the
returned message's audio, meaningful for `answer_audio`) or an exception. -/
inductive SendRes where
  | ok (file_id : String)
  | fail (err : String)
  deriving DecidableEq, Repr

/-- Outcomes for each platform call a single handler invocation may attempt:
the plain text send, the audio send (cached or upload), and the two sends of
`on_start`'s except-block. -/
structure SendEnv where
  textRes : SendRes
  audioRes : SendRes
  retryRes : SendRes
  adminRes : SendRes
  deriving DecidableEq, Repr

/-- A platform call attempted by a handler (recorded even when it fails). -/
inductive Action where
  | sendText (text : String)
  | sendCachedAudio (file_id : String) (caption : String)
  | uploadAudio (path : String) (caption : String)
  | sendAdmin (admin_id : ℤ) (text : String)
  deriving DecidableEq, Repr

/-- Is the action the disk-upload audio send (`FSInputFile` path)? -/
def Action.isUpload : Action → Bool
  | .uploadAudio _ _ => true
  | _ => false

/-- Is the action an audio send of either kind? -/
def Action.isAudioSend : Action → Bool
  | .uploadAudio _ _ => true
  | .sendCachedAudio _ _ => true
  | _ => false

/-- The module-level mutable state (src/main.py:36-38). -/
structure BotState where
  USERS : Finset ℤ
  LAST_ACTION_AT : ThrottleMap
  AUDIO_FILE_ID : Option String

/-- State at process start (src/main.py:36-38). -/
def initState : BotState :=
  { USERS := ∅, LAST_ACTION_AT := fun _ => none, AUDIO_FILE_ID := none }

/-- Result of one handler invocation: whether an exception escaped, the
state afterwards, and the attempted platform calls in order. -/
structure HandlerOut where
  result : Except String Unit
  state : BotState
  trace : List Action

/-- The audio-send block shared by `on_start` (src/main.py:80-86) and
`on_keyword` (src/main.py:112-117): if `AUDIO_FILE_ID` is truthy send by
cached id, else upload from disk and on success store the returned
`file_id`.  Returns the state (updated only on a successful upload) and the
attempted call; `.error` models the raised exception. -/
def sendAudioBlock (cfg : Config) (env : SendEnv) (st : BotState) :
    Except String BotState × List Action :=
  if pyTruthyStr st.AUDIO_FILE_ID then
    let fid := st.AUDIO_FILE_ID.getD ""
    match env.audioRes with
    | .ok _ => (.ok st, [.sendCachedAudio fid AUDIO_CAPTION])
    | .fail e => (.error e, [.sendCachedAudio fid AUDIO_CAPTION])
  else
    match env.audioRes with
    | .ok fid => (.ok { st with AUDIO_FILE_ID := some fid },
                  [.uploadAudio cfg.audio_path AUDIO_CAPTION])
    | .fail e => (.error e, [.uploadAudio cfg.audio_path AUDIO_CAPTION])

/-- The `except Exception as e:` block of `on_start` (src/main.py:87-90):
send the retry text, then, if `cfg.admin_id` is truthy, the admin
diagnostic.  Each of these sends is itself unguarded, so its failure
escapes the handler. -/
def exceptAudio (cfg : Config) (e : String) (st : BotState) (tr : List Action)
    (env : SendEnv) : HandlerOut :=
  match env.retryRes with
  | .fail e2 => ⟨.error e2, st, tr ++ [.sendText RETRY_TEXT]⟩
  | .ok _ =>
    let tr := tr ++ [.sendText RETRY_TEXT]
    if pyTruthyInt cfg.admin_id then
      let a := cfg.admin_id.getD 0
      match env.adminRes with
      | .fail e3 => ⟨.error e3, st, tr ++ [.sendAdmin a (audioErrText e)]⟩
      | .ok _ => ⟨.ok (), st, tr ++ [.sendAdmin a (audioErrText e)]⟩
    else ⟨.ok (), st, tr⟩

/-- `on_start` (src/main.py:69-90). -/
def on_start (cfg : Config) (uid : ℤ) (now : ℚ) (env : SendEnv)
    (st : BotState) : HandlerOut :=
  let st := { st with USERS := insert uid st.USERS }
  let r := throttled st.LAST_ACTION_AT uid now
  let st := { st with LAST_ACTION_AT := r.2 }
  if r.1 then ⟨.ok (), st, []⟩
  else
    match env.textRes with
    | .fail e => ⟨.error e, st, [.sendText WELCOME_TEXT]⟩
    | .ok _ =>
      let tr := [Action.sendText WELCOME_TEXT]
      match sendAudioBlock cfg env st with
      | (.ok st2, tra) => ⟨.ok (), st2, tr ++ tra⟩
      | (.error e, tra) => exceptAudio cfg e st (tr ++ tra) env

/-- `on_help` (src/main.py:93-94). -/
def on_help (env : SendEnv) (st : BotState) : HandlerOut :=
  match env.textRes with
  | .fail e => ⟨.error e, st, [.sendText HELP_TEXT]⟩
  | .ok _ => ⟨.ok (), st, [.sendText HELP_TEXT]⟩

/-- `on_stats` (src/main.py:97-101); `if cfg.admin_id and
message.from_user.id == cfg.admin_id:` with Python truthiness of
`cfg.admin_id`. -/
def on_stats (cfg : Config) (uid : ℤ) (env : SendEnv) (st : BotState) :
    HandlerOut :=
  let isAdmin := pyTruthyInt cfg.admin_id && (uid == cfg.admin_id.getD 0)
  let txt := if isAdmin then statsText st.USERS.card else DENY_TEXT
  match env.textRes with
  | .fail e => ⟨.error e, st, [.sendText txt]⟩
  | .ok _ => ⟨.ok (), st, [.sendText txt]⟩

/-- `on_keyword` (src/main.py:104-117).  Note the audio send here has no
try/except. -/
def on_keyword (cfg : Config) (uid : ℤ) (txt : String) (now : ℚ)
    (env : SendEnv) (st : BotState) : HandlerOut :=
  let text := pyLower (pyStrip txt)
  if text ≠ "096" then ⟨.ok (), st, []⟩
  else
    let r := throttled st.LAST_ACTION_AT uid now
    let st := { st with LAST_ACTION_AT := r.2 }
    if r.1 then ⟨.ok (), st, []⟩
    else
      match sendAudioBlock cfg env st with
      | (.ok st2, tra) => ⟨.ok (), st2, tra⟩
      | (.error e, tra) => ⟨.error e, st, tra⟩

/-- An inbound event, as dispatched by the registrations in `main()`
(src/main.py:126-129), with the clock value and send outcomes attached. -/
inductive Event where
  | start (uid : ℤ) (now : ℚ) (env : SendEnv)
  | help (env : SendEnv)
  | stats (uid : ℤ) (env : SendEnv)
  | text (uid : ℤ) (txt : String) (now : ℚ) (env : SendEnv)
  deriving DecidableEq, Repr

/-- Dispatch one event to its handler. -/
def step (cfg : Config) (st : BotState) : Event → HandlerOut
  | .start uid now env => on_start cfg uid now env st
  | .help env => on_help env st
  | .stats uid env => on_stats cfg uid env st
  | .text uid txt now env => on_keyword cfg uid txt now env st

/-- Run a sequence of events without interleaving, threading the state. -/
def runEvents (cfg : Config) (st : BotState) (es : List Event) : BotState :=
  es.foldl (fun s e => (step cfg s e).state) st

/-- The platform calls attempted along a sequence of events, in order. -/
def runTraces (cfg : Config) (st : BotState) : List Event → List Action
  | [] => []
  | e :: es => (step cfg st e).trace ++ runTraces cfg (step cfg st e).state es

/-- The audio-send outcome attached to an event, when its handler can reach
the audio block. -/
def Event.audioRes : Event → Option SendRes
  | .start _ _ env => some env.audioRes
  | .help _ => none
  | .stats _ _ => none
  | .text _ _ _ env => some env.audioRes

/-- A concrete configuration used to evaluate the handlers on sample runs
(admin id 7 configured; default audio path). -/
def cfgDemo : Config :=
  { token := "tok", admin_id := some 7,
    pre_save_url := "https://example.com/presave",
    channel_url := "https://t.me/your_channel" }

/-- Sample send outcomes: every platform call succeeds; an upload returns
file id `"X"`. -/
def envOkX : SendEnv := ⟨.ok "", .ok "X", .ok "", .ok ""⟩

/-- Sample send outcomes: every platform call succeeds; an upload returns
the empty file id. -/
def envOkEmpty : SendEnv := ⟨.ok "", .ok "", .ok "", .ok ""⟩

/-- Sample send outcomes: the audio send raises `"boom"`, everything else
succeeds. -/
def envAudioFail : SendEnv := ⟨.ok "", .fail "boom", .ok "", .ok ""⟩

/-- Sample send outcomes: the audio send raises `"boom"` and the admin
notification raises `"boom2"`. -/
def envAdminFail : SendEnv := ⟨.ok "", .fail "boom", .ok "", .fail "boom2"⟩

/-- A sample state whose media cache holds the nonempty handle `"X"`. -/
def stCachedX : BotState :=
  { USERS := ∅, LAST_ACTION_AT := fun _ => none, AUDIO_FILE_ID := some "X" }

/-! ### Helper lemmas about `throttled` -/

theorem throttled_fst (m : ThrottleMap) (u : ℤ) (t : ℚ) :
    (throttled m u t).1 = decide (t - ((m u).getD 0) < THROTTLE_SECONDS) := by
  simp only [throttled]
  split_ifs with h <;> simp [h]

theorem throttled_rejected_snd {m : ThrottleMap} {u : ℤ} {t : ℚ}
    (h : (throttled m u t).1 = true) : (throttled m u t).2 = m := by
  simp only [throttled] at h ⊢
  split_ifs at h ⊢ <;> simp_all

theorem throttled_admitted_snd {m : ThrottleMap} {u : ℤ} {t : ℚ}
    (h : (throttled m u t).1 = false) :
    (throttled m u t).2 = fun v => if v = u then some t else m v := by
  simp only [throttled] at h ⊢
  split_ifs at h ⊢ <;> simp_all

/-- C1: after an admitted call for user `u` at time `t1`, a second call for
`u` at `t2` is rejected exactly when `t2 - t1 < 5`; a rejected call leaves
the map unchanged, an admitted call records its time as `u`'s last-action
time, and no call modifies any other user's entry. -/
theorem throttle_window_correct (u : ℤ) (t1 t2 : ℚ) (m : ThrottleMap)
    (h12 : t1 < t2) (h1 : (throttled m u t1).1 = false) :
    ((throttled (throttled m u t1).2 u t2).1 = true ↔ t2 - t1 < THROTTLE_SECONDS)
    ∧ ((throttled (throttled m u t1).2 u t2).1 = false ↔ THROTTLE_SECONDS ≤ t2 - t1)
    ∧ (∀ (m' : ThrottleMap) (t : ℚ),
        (throttled m' u t).1 = true → (throttled m' u t).2 = m')
    ∧ (∀ (m' : ThrottleMap) (t : ℚ),
        (throttled m' u t).1 = false → (throttled m' u t).2 u = some t)
    ∧ (∀ (m' : ThrottleMap) (t : ℚ) (v : ℤ),
        v ≠ u → (throttled m' u t).2 v = m' v) := by
  have hm1 : (throttled m u t1).2 = fun v => if v = u then some t1 else m v :=
    throttled_admitted_snd h1
  refine ⟨?_, ?_, ?_, ?_, ?_⟩
  · rw [hm1, throttled_fst]
    simp
  · rw [hm1, throttled_fst]
    simp [not_lt]
  · intro m' t h
    exact throttled_rejected_snd h
  · intro m' t h
    rw [throttled_admitted_snd h]
    simp
  · intro m' t v hv
    by_cases hh : (throttled m' u t).1 = true
    · rw [throttled_rejected_snd hh]
    · rw [throttled_admitted_snd (by simpa using hh)]
      simp [hv]

theorem throttle_window_correct_witness :
    ((throttled (throttled (fun _ => none) 1 10).2 1 12).1 = true)
    ∧ ((throttled (throttled (fun _ => none) 1 10).2 1 15).1 = false) := by
  have h1 : (throttled (fun _ => (none : Option ℚ)) 1 10).1 = false := by
    rw [throttled_fst]
    simp [THROTTLE_SECONDS]
    norm_num
  constructor
  · exact (throttle_window_correct 1 10 12 (fun _ => none) (by norm_num)
      h1).1.mpr (by norm_num [THROTTLE_SECONDS])
  · exact (throttle_window_correct 1 10 15 (fun _ => none) (by norm_num)
      h1).2.1.mpr (by norm_num [THROTTLE_SECONDS])

/-! ### Helper lemmas about the handlers -/

theorem on_help_state (env : SendEnv) (st : BotState) :
    (on_help env st).state = st := by
  cases h : env.textRes <;> simp [on_help, h]

theorem on_stats_state (cfg : Config) (uid : ℤ) (env : SendEnv)
    (st : BotState) : (on_stats cfg uid env st).state = st := by
  cases h : env.textRes <;> simp [on_stats, h]

theorem on_start_state_USERS (cfg : Config) (uid : ℤ) (now : ℚ)
    (env : SendEnv) (st : BotState) :
    (on_start cfg uid now env st).state.USERS = insert uid st.USERS := by
  rcases env with ⟨tR, aR, rR, adR⟩
  cases tR <;> cases aR <;> cases rR <;> cases adR <;>
    simp only [on_start, sendAudioBlock, exceptAudio] <;>
    split_ifs <;> simp_all

theorem on_keyword_state_USERS (cfg : Config) (uid : ℤ) (txt : String)
    (now : ℚ) (env : SendEnv) (st : BotState) :
    (on_keyword cfg uid txt now env st).state.USERS = st.USERS := by
  rcases env with ⟨tR, aR, rR, adR⟩
  cases aR <;>
    simp only [on_keyword, sendAudioBlock] <;>
    split_ifs <;> simp_all

/-- C7: the start handler records the sender in `USERS` unconditionally
(whatever the throttle decision and send outcomes); no other handler changes
`USERS`; hence over any event the set only grows, and it grows only via the
start path. -/
theorem users_grow_only_via_start (cfg : Config) (st : BotState) (e : Event) :
    ((step cfg st e).state.USERS =
      (match e with
       | .start uid _ _ => insert uid st.USERS
       | _ => st.USERS))
    ∧ st.USERS ⊆ (step cfg st e).state.USERS
    ∧ st.USERS.card ≤ (step cfg st e).state.USERS.card := by
  have heq : (step cfg st e).state.USERS =
      (match e with
       | .start uid _ _ => insert uid st.USERS
       | _ => st.USERS) := by
    cases e with
    | start uid now env => exact on_start_state_USERS cfg uid now env st
    | help env => rw [step, on_help_state]
    | stats uid env => rw [step, on_stats_state]
    | text uid txt now env => exact on_keyword_state_USERS cfg uid txt now env st
  have hsub : st.USERS ⊆ (step cfg st e).state.USERS := by
    rw [heq]
    cases e <;> simp [Finset.subset_insert]
  exact ⟨heq, hsub, Finset.card_le_card hsub⟩

theorem step_truthy_cache (cfg : Config) (st : BotState) (e : Event)
    (h : pyTruthyStr st.AUDIO_FILE_ID = true) :
    (step cfg st e).state.AUDIO_FILE_ID = st.AUDIO_FILE_ID
    ∧ ∀ a ∈ (step cfg st e).trace, a.isUpload = false ∧
        (a.isAudioSend = true →
          a = .sendCachedAudio (st.AUDIO_FILE_ID.getD "") AUDIO_CAPTION) := by
  cases e with
  | start uid now env =>
    rcases env with ⟨tR, aR, rR, adR⟩
    cases tR <;> cases aR <;> cases rR <;> cases adR <;>
      simp only [step, on_start, sendAudioBlock, exceptAudio, h] <;>
      split_ifs <;> simp_all [Action.isUpload, Action.isAudioSend]
  | help env =>
    cases hh : env.textRes <;>
      simp_all [step, on_help, Action.isUpload, Action.isAudioSend]
  | stats uid env =>
    cases hh : env.textRes <;>
      simp_all [step, on_stats, Action.isUpload, Action.isAudioSend]
  | text uid txt now env =>
    rcases env with ⟨tR, aR, rR, adR⟩
    cases aR <;>
      simp only [step, on_keyword, sendAudioBlock, h] <;>
      split_ifs <;> simp_all [Action.isUpload, Action.isAudioSend]

theorem step_upload_sets_handle (cfg : Config) (st : BotState) (e : Event)
    (fid : String) (hup : (step cfg st e).trace.any Action.isUpload = true)
    (hok : Event.audioRes e = some (.ok fid)) :
    (step cfg st e).state.AUDIO_FILE_ID = some fid := by
  cases e with
  | start uid now env =>
    rcases env with ⟨tR, aR, rR, adR⟩
    simp only [Event.audioRes] at hok
    cases tR <;> cases aR <;> cases rR <;> cases adR <;>
      simp only [step, on_start, sendAudioBlock, exceptAudio] at hup ⊢ <;>
      split_ifs at hup ⊢ <;>
      simp_all [Action.isUpload]
  | help env => simp only [Event.audioRes] at hok; exact absurd hok (by simp)
  | stats uid env => simp only [Event.audioRes] at hok; exact absurd hok (by simp)
  | text uid txt now env =>
    rcases env with ⟨tR, aR, rR, adR⟩
    simp only [Event.audioRes] at hok
    cases aR <;>
      simp only [step, on_keyword, sendAudioBlock] at hup ⊢ <;>
      split_ifs at hup ⊢ <;>
      simp_all [Action.isUpload]

/-- C2 (amended): the disk uploader runs only when `AUDIO_FILE_ID` is
Python-falsy (`None` or `""`); an upload whose send succeeds stores the
returned `file_id`; and once `AUDIO_FILE_ID` holds a nonempty handle, every
later event leaves it unchanged, never invokes the uploader again, and any
audio send uses the cached handle. -/
theorem audio_upload_once (cfg : Config) (st : BotState) :
    (∀ e : Event, (step cfg st e).trace.any Action.isUpload = true →
        pyTruthyStr st.AUDIO_FILE_ID = false)
    ∧ (∀ (e : Event) (fid : String),
        (step cfg st e).trace.any Action.isUpload = true →
        Event.audioRes e = some (.ok fid) →
        (step cfg st e).state.AUDIO_FILE_ID = some fid)
    ∧ (pyTruthyStr st.AUDIO_FILE_ID = true →
        ∀ es : List Event,
          (runEvents cfg st es).AUDIO_FILE_ID = st.AUDIO_FILE_ID
          ∧ ∀ a ∈ runTraces cfg st es, a.isUpload = false ∧
              (a.isAudioSend = true →
                a = .sendCachedAudio (st.AUDIO_FILE_ID.getD "") AUDIO_CAPTION)) := by
  refine ⟨?_, ?_, ?_⟩
  · intro e hup
    by_contra hfalse
    have ht : pyTruthyStr st.AUDIO_FILE_ID = true := by
      cases hh : pyTruthyStr st.AUDIO_FILE_ID <;> simp_all
    rcases List.any_eq_true.mp hup with ⟨a, ha, hau⟩
    have := ((step_truthy_cache cfg st e ht).2 a ha).1
    simp_all
  · intro e fid hup hok
    exact step_upload_sets_handle cfg st e fid hup hok
  · intro ht es
    induction es generalizing st with
    | nil => simp [runEvents, runTraces]
    | cons e es ih =>
      have hstep := step_truthy_cache cfg st e ht
      have ht2 : pyTruthyStr (step cfg st e).state.AUDIO_FILE_ID = true := by
        rw [hstep.1]; exact ht
      have ihres := ih (step cfg st e).state ht2
      constructor
      · rw [runEvents, List.foldl_cons]
        have : (runEvents cfg (step cfg st e).state es).AUDIO_FILE_ID
            = (step cfg st e).state.AUDIO_FILE_ID := ihres.1
        rw [runEvents] at this
        rw [this, hstep.1]
      · intro a ha
        rw [runTraces] at ha
        rcases List.mem_append.mp ha with hmem | hmem
        · exact hstep.2 a hmem
        · have := ihres.2 a hmem
          rw [hstep.1] at this
          exact this

theorem on_start_state_LAST (cfg : Config) (uid : ℤ) (now : ℚ)
    (env : SendEnv) (st : BotState) :
    (on_start cfg uid now env st).state.LAST_ACTION_AT
      = (throttled st.LAST_ACTION_AT uid now).2 := by
  rcases env with ⟨tR, aR, rR, adR⟩
  cases tR <;> cases aR <;> cases rR <;> cases adR <;>
    simp only [on_start, sendAudioBlock, exceptAudio] <;>
    split_ifs <;> simp_all

theorem on_keyword_state_LAST (cfg : Config) (uid : ℤ) (txt : String)
    (now : ℚ) (env : SendEnv) (st : BotState)
    (h : pyLower (pyStrip txt) = "096") :
    (on_keyword cfg uid txt now env st).state.LAST_ACTION_AT
      = (throttled st.LAST_ACTION_AT uid now).2 := by
  rcases env with ⟨tR, aR, rR, adR⟩
  cases aR <;>
    simp only [on_keyword, sendAudioBlock, h] <;>
    split_ifs <;> simp_all

theorem on_start_throttled_eval (cfg : Config) (uid : ℤ) (now : ℚ)
    (env : SendEnv) (st : BotState)
    (hthr : (throttled st.LAST_ACTION_AT uid now).1 = true) :
    on_start cfg uid now env st =
      ⟨.ok (), { USERS := insert uid st.USERS,
                 LAST_ACTION_AT := st.LAST_ACTION_AT,
                 AUDIO_FILE_ID := st.AUDIO_FILE_ID }, []⟩ := by
  have h2 := throttled_rejected_snd hthr
  simp only [on_start, hthr, h2, if_true]

theorem on_start_upload_ok (cfg : Config) (uid : ℤ) (now : ℚ)
    (env : SendEnv) (st : BotState)
    (hthr : (throttled st.LAST_ACTION_AT uid now).1 = false)
    (s : String) (htext : env.textRes = .ok s)
    (hfalsy : pyTruthyStr st.AUDIO_FILE_ID = false)
    (fid : String) (haud : env.audioRes = .ok fid) :
    on_start cfg uid now env st =
      ⟨.ok (), { USERS := insert uid st.USERS,
                 LAST_ACTION_AT := (throttled st.LAST_ACTION_AT uid now).2,
                 AUDIO_FILE_ID := some fid },
       [.sendText WELCOME_TEXT, .uploadAudio cfg.audio_path AUDIO_CAPTION]⟩ := by
  simp only [on_start, sendAudioBlock, hthr, htext, hfalsy, haud]
  simp

theorem on_start_upload_fail (cfg : Config) (uid : ℤ) (now : ℚ)
    (env : SendEnv) (st : BotState)
    (hthr : (throttled st.LAST_ACTION_AT uid now).1 = false)
    (s : String) (htext : env.textRes = .ok s)
    (hfalsy : pyTruthyStr st.AUDIO_FILE_ID = false)
    (e : String) (haud : env.audioRes = .fail e) :
    on_start cfg uid now env st =
      exceptAudio cfg e
        { USERS := insert uid st.USERS,
          LAST_ACTION_AT := (throttled st.LAST_ACTION_AT uid now).2,
          AUDIO_FILE_ID := st.AUDIO_FILE_ID }
        [.sendText WELCOME_TEXT, .uploadAudio cfg.audio_path AUDIO_CAPTION]
        env := by
  simp only [on_start, sendAudioBlock, hthr, htext, hfalsy, haud]
  simp

theorem on_start_cached_fail (cfg : Config) (uid : ℤ) (now : ℚ)
    (env : SendEnv) (st : BotState)
    (hthr : (throttled st.LAST_ACTION_AT uid now).1 = false)
    (s : String) (htext : env.textRes = .ok s)
    (htruthy : pyTruthyStr st.AUDIO_FILE_ID = true)
    (e : String) (haud : env.audioRes = .fail e) :
    on_start cfg uid now env st =
      exceptAudio cfg e
        { USERS := insert uid st.USERS,
          LAST_ACTION_AT := (throttled st.LAST_ACTION_AT uid now).2,
          AUDIO_FILE_ID := st.AUDIO_FILE_ID }
        [.sendText WELCOME_TEXT,
         .sendCachedAudio (st.AUDIO_FILE_ID.getD "") AUDIO_CAPTION]
        env := by
  simp only [on_start, sendAudioBlock, hthr, htext, htruthy, haud]
  simp

theorem on_keyword_upload_eval (cfg : Config) (uid : ℤ) (txt : String)
    (now : ℚ) (env : SendEnv) (st : BotState)
    (hmatch : pyLower (pyStrip txt) = "096")
    (hthr : (throttled st.LAST_ACTION_AT uid now).1 = false)
    (hfalsy : pyTruthyStr st.AUDIO_FILE_ID = false) :
    on_keyword cfg uid txt now env st =
      (match env.audioRes with
       | .ok fid =>
         ⟨.ok (), { USERS := st.USERS,
                    LAST_ACTION_AT := (throttled st.LAST_ACTION_AT uid now).2,
                    AUDIO_FILE_ID := some fid },
          [.uploadAudio cfg.audio_path AUDIO_CAPTION]⟩
       | .fail e =>
         ⟨.error e, { USERS := st.USERS,
                      LAST_ACTION_AT := (throttled st.LAST_ACTION_AT uid now).2,
                      AUDIO_FILE_ID := st.AUDIO_FILE_ID },
          [.uploadAudio cfg.audio_path AUDIO_CAPTION]⟩) := by
  cases haud : env.audioRes <;>
    simp only [on_keyword, sendAudioBlock, hmatch, hthr, hfalsy, haud] <;>
    simp

theorem audio_upload_once_witness :
    (runEvents cfgDemo stCachedX [Event.help envOkX]).AUDIO_FILE_ID
      = stCachedX.AUDIO_FILE_ID :=
  ((audio_upload_once cfgDemo stCachedX).2.2 (by decide) [Event.help envOkX]).1

theorem audio_cache_reassign_counterexample :
    (step cfgDemo initState (.start 1 10 envOkEmpty)).state.AUDIO_FILE_ID
        = some ""
    ∧ ((step cfgDemo (step cfgDemo initState (.start 1 10 envOkEmpty)).state
          (.start 1 20 envOkX)).trace.any Action.isUpload = true)
    ∧ (step cfgDemo (step cfgDemo initState (.start 1 10 envOkEmpty)).state
          (.start 1 20 envOkX)).state.AUDIO_FILE_ID = some "X" := by
  have hthr1 : (throttled initState.LAST_ACTION_AT 1 10).1 = false := by
    rw [throttled_fst]
    norm_num [THROTTLE_SECONDS, initState]
  have h1 : step cfgDemo initState (.start 1 10 envOkEmpty) =
      ⟨.ok (), { USERS := insert 1 initState.USERS,
                 LAST_ACTION_AT := (throttled initState.LAST_ACTION_AT 1 10).2,
                 AUDIO_FILE_ID := some "" },
       [.sendText WELCOME_TEXT, .uploadAudio cfgDemo.audio_path AUDIO_CAPTION]⟩ :=
    on_start_upload_ok cfgDemo 1 10 envOkEmpty initState hthr1 "" rfl rfl "" rfl
  have hmap : (throttled initState.LAST_ACTION_AT 1 10).2 1 = some 10 := by
    rw [throttled_admitted_snd hthr1]
    simp
  have hthr2 : (throttled (throttled initState.LAST_ACTION_AT 1 10).2 1 20).1
      = false := by
    rw [throttled_fst, hmap]
    norm_num [THROTTLE_SECONDS]
  have h2 : step cfgDemo
      ({ USERS := insert 1 initState.USERS,
         LAST_ACTION_AT := (throttled initState.LAST_ACTION_AT 1 10).2,
         AUDIO_FILE_ID := some "" } : BotState) (.start 1 20 envOkX) =
      ⟨.ok (), { USERS := insert 1 (insert 1 initState.USERS),
                 LAST_ACTION_AT :=
                   (throttled (throttled initState.LAST_ACTION_AT 1 10).2 1 20).2,
                 AUDIO_FILE_ID := some "X" },
       [.sendText WELCOME_TEXT, .uploadAudio cfgDemo.audio_path AUDIO_CAPTION]⟩ :=
    on_start_upload_ok cfgDemo 1 20 envOkX
      { USERS := insert 1 initState.USERS,
        LAST_ACTION_AT := (throttled initState.LAST_ACTION_AT 1 10).2,
        AUDIO_FILE_ID := some "" } hthr2 "" rfl
      (by simp [pyTruthyStr]) "X" rfl
  rw [h1]
  simp only [h2]
  simp [Action.isUpload]

theorem on_keyword_cached_eval (cfg : Config) (uid : ℤ) (txt : String)
    (now : ℚ) (env : SendEnv) (st : BotState)
    (hmatch : pyLower (pyStrip txt) = "096")
    (hthr : (throttled st.LAST_ACTION_AT uid now).1 = false)
    (htruthy : pyTruthyStr st.AUDIO_FILE_ID = true) :
    on_keyword cfg uid txt now env st =
      (match env.audioRes with
       | .ok _ =>
         ⟨.ok (), { USERS := st.USERS,
                    LAST_ACTION_AT := (throttled st.LAST_ACTION_AT uid now).2,
                    AUDIO_FILE_ID := st.AUDIO_FILE_ID },
          [.sendCachedAudio (st.AUDIO_FILE_ID.getD "") AUDIO_CAPTION]⟩
       | .fail e =>
         ⟨.error e, { USERS := st.USERS,
                      LAST_ACTION_AT := (throttled st.LAST_ACTION_AT uid now).2,
                      AUDIO_FILE_ID := st.AUDIO_FILE_ID },
          [.sendCachedAudio (st.AUDIO_FILE_ID.getD "") AUDIO_CAPTION]⟩) := by
  cases haud : env.audioRes <;>
    simp only [on_keyword, sendAudioBlock, hmatch, hthr, htruthy, haud] <;>
    simp

theorem exceptAudio_trace_prefix (cfg : Config) (e : String) (st : BotState)
    (tr : List Action) (env : SendEnv) :
    ∃ tl, (exceptAudio cfg e st tr env).trace = tr ++ tl := by
  cases hr : env.retryRes with
  | ok r =>
    simp only [exceptAudio, hr]
    split_ifs
    · cases ha : env.adminRes <;> simp only [ha] <;>
        exact ⟨_, List.append_assoc _ _ _⟩
    · exact ⟨_, rfl⟩
  | fail e2 =>
    simp only [exceptAudio, hr]
    exact ⟨_, rfl⟩

theorem exceptAudio_state (cfg : Config) (e : String) (st : BotState)
    (tr : List Action) (env : SendEnv) :
    (exceptAudio cfg e st tr env).state = st := by
  cases hr : env.retryRes with
  | ok r =>
    simp only [exceptAudio, hr]
    split_ifs
    · cases ha : env.adminRes <;> simp only [ha]
    · rfl
  | fail e2 =>
    simp only [exceptAudio, hr]

theorem step_audiofail_preserves (cfg : Config) (st : BotState) (e : Event)
    (err : String) (hfail : Event.audioRes e = some (.fail err)) :
    (step cfg st e).state.AUDIO_FILE_ID = st.AUDIO_FILE_ID := by
  cases e with
  | start uid now env =>
    rcases env with ⟨tR, aR, rR, adR⟩
    simp only [Event.audioRes] at hfail
    cases tR <;> cases aR <;> cases rR <;> cases adR <;>
      simp only [step, on_start, sendAudioBlock, exceptAudio] <;>
      split_ifs <;> simp_all
  | help env => rw [step, on_help_state]
  | stats uid env => rw [step, on_stats_state]
  | text uid txt now env =>
    rcases env with ⟨tR, aR, rR, adR⟩
    simp only [Event.audioRes] at hfail
    cases aR <;>
      simp only [step, on_keyword, sendAudioBlock] <;>
      split_ifs <;> simp_all

theorem throttled_init_pass (u : ℤ) (t : ℚ) (h5 : THROTTLE_SECONDS ≤ t) :
    (throttled initState.LAST_ACTION_AT u t).1 = false := by
  rw [throttled_fst]
  simp only [initState, Option.getD_none, sub_zero, decide_eq_false_iff_not,
    not_lt]
  exact h5

/-- C3 (amended): on the start path a failed audio send or upload is caught
inside the handler: provided the recovery sends themselves succeed, the
handler finishes without an exception, the user is sent the generic retry
message, and, when a (nonzero) admin id is configured, the admin is sent the
diagnostic containing the error detail.  On the keyword path the failure is
NOT caught: the exception escapes the handler and no retry message is
sent. -/
theorem audio_failure_start_caught_keyword_uncaught (cfg : Config)
    (st : BotState) (uid : ℤ) (now : ℚ) (env : SendEnv) (e : String)
    (hthr : (throttled st.LAST_ACTION_AT uid now).1 = false)
    (haud : env.audioRes = .fail e) :
    (∀ s r r2, env.textRes = .ok s → env.retryRes = .ok r →
      env.adminRes = .ok r2 →
      (on_start cfg uid now env st).result = .ok ()
      ∧ Action.sendText RETRY_TEXT ∈ (on_start cfg uid now env st).trace
      ∧ (pyTruthyInt cfg.admin_id = true →
          Action.sendAdmin (cfg.admin_id.getD 0) (audioErrText e)
            ∈ (on_start cfg uid now env st).trace))
    ∧ (∀ txt, pyLower (pyStrip txt) = "096" →
        (on_keyword cfg uid txt now env st).result = .error e
        ∧ Action.sendText RETRY_TEXT ∉ (on_keyword cfg uid txt now env st).trace) := by
  constructor
  · intro s r r2 htext hretry hadm
    by_cases hc : pyTruthyStr st.AUDIO_FILE_ID = true
    · rw [on_start_cached_fail cfg uid now env st hthr s htext hc e haud]
      simp only [exceptAudio, hretry]
      split_ifs with hadmin <;> simp_all [RETRY_TEXT, WELCOME_TEXT, audioErrText]
    · have hc' : pyTruthyStr st.AUDIO_FILE_ID = false := by
        cases hh : pyTruthyStr st.AUDIO_FILE_ID <;> simp_all
      rw [on_start_upload_fail cfg uid now env st hthr s htext hc' e haud]
      simp only [exceptAudio, hretry]
      split_ifs with hadmin <;> simp_all [RETRY_TEXT, WELCOME_TEXT, audioErrText]
  · intro txt hmatch
    by_cases hc : pyTruthyStr st.AUDIO_FILE_ID = true
    · rw [on_keyword_cached_eval cfg uid txt now env st hmatch hthr hc, haud]
      simp [RETRY_TEXT, AUDIO_CAPTION]
    · have hc' : pyTruthyStr st.AUDIO_FILE_ID = false := by
        cases hh : pyTruthyStr st.AUDIO_FILE_ID <;> simp_all
      rw [on_keyword_upload_eval cfg uid txt now env st hmatch hthr hc', haud]
      simp [RETRY_TEXT, AUDIO_CAPTION]

theorem audio_failure_start_caught_keyword_uncaught_witness :
    (on_start cfgDemo 1 10 envAudioFail initState).result = .ok ()
    ∧ Action.sendText RETRY_TEXT ∈ (on_start cfgDemo 1 10 envAudioFail initState).trace := by
  have h := (audio_failure_start_caught_keyword_uncaught cfgDemo initState
      1 10 envAudioFail "boom"
      (throttled_init_pass 1 10 (by norm_num [THROTTLE_SECONDS])) rfl).1
      "" "" "" rfl rfl rfl
  exact ⟨h.1, h.2.1⟩

theorem keyword_audio_failure_uncaught_counterexample :
    (on_keyword cfgDemo 1 "096" 10 envAudioFail initState).result
        = .error "boom"
    ∧ Action.sendText RETRY_TEXT ∉
        (on_keyword cfgDemo 1 "096" 10 envAudioFail initState).trace := by
  rw [on_keyword_upload_eval cfgDemo 1 "096" 10 envAudioFail initState
    (by decide) (throttled_init_pass 1 10 (by norm_num [THROTTLE_SECONDS]))
    rfl]
  simp [envAudioFail, RETRY_TEXT]

/-- C4: a failed audio send never stores a handle: with `AUDIO_FILE_ID`
unset, an event whose audio send fails leaves it unset, and any next
admitted start or keyword event (cache still unset) invokes the disk
uploader again. -/
theorem upload_failure_retryable (cfg : Config) :
    (∀ (st : BotState) (e : Event) (err : String), st.AUDIO_FILE_ID = none →
        Event.audioRes e = some (.fail err) →
        (step cfg st e).state.AUDIO_FILE_ID = none)
    ∧ (∀ (st : BotState) (uid : ℤ) (now : ℚ) (env : SendEnv) (s : String),
        st.AUDIO_FILE_ID = none →
        (throttled st.LAST_ACTION_AT uid now).1 = false →
        env.textRes = .ok s →
        Action.uploadAudio cfg.audio_path AUDIO_CAPTION
          ∈ (on_start cfg uid now env st).trace)
    ∧ (∀ (st : BotState) (uid : ℤ) (txt : String) (now : ℚ) (env : SendEnv),
        st.AUDIO_FILE_ID = none →
        pyLower (pyStrip txt) = "096" →
        (throttled st.LAST_ACTION_AT uid now).1 = false →
        Action.uploadAudio cfg.audio_path AUDIO_CAPTION
          ∈ (on_keyword cfg uid txt now env st).trace) := by
  refine ⟨?_, ?_, ?_⟩
  · intro st e err hnone hfail
    rw [step_audiofail_preserves cfg st e err hfail, hnone]
  · intro st uid now env s hnone hthr htext
    have hfalsy : pyTruthyStr st.AUDIO_FILE_ID = false := by rw [hnone]; rfl
    cases haud : env.audioRes with
    | ok fid =>
      rw [on_start_upload_ok cfg uid now env st hthr s htext hfalsy fid haud]
      simp
    | fail e =>
      rw [on_start_upload_fail cfg uid now env st hthr s htext hfalsy e haud]
      rcases exceptAudio_trace_prefix cfg e
        { USERS := insert uid st.USERS,
          LAST_ACTION_AT := (throttled st.LAST_ACTION_AT uid now).2,
          AUDIO_FILE_ID := st.AUDIO_FILE_ID }
        [.sendText WELCOME_TEXT, .uploadAudio cfg.audio_path AUDIO_CAPTION]
        env with ⟨tl, htl⟩
      rw [htl]
      simp
  · intro st uid txt now env hnone hmatch hthr
    have hfalsy : pyTruthyStr st.AUDIO_FILE_ID = false := by rw [hnone]; rfl
    rw [on_keyword_upload_eval cfg uid txt now env st hmatch hthr hfalsy]
    cases haud : env.audioRes <;> simp [haud]

theorem upload_failure_retryable_witness :
    (step cfgDemo initState (.start 1 10 envAudioFail)).state.AUDIO_FILE_ID
        = none
    ∧ Action.uploadAudio cfgDemo.audio_path AUDIO_CAPTION
        ∈ (on_start cfgDemo 1 10 envAudioFail initState).trace :=
  ⟨(upload_failure_retryable cfgDemo).1 initState (.start 1 10 envAudioFail)
      "boom" rfl rfl,
   (upload_failure_retryable cfgDemo).2.1 initState 1 10 envAudioFail "" rfl
      (throttled_init_pass 1 10 (by norm_num [THROTTLE_SECONDS])) rfl⟩

theorem on_keyword_throttled_eval (cfg : Config) (uid : ℤ) (txt : String)
    (now : ℚ) (env : SendEnv) (st : BotState)
    (hmatch : pyLower (pyStrip txt) = "096")
    (hthr : (throttled st.LAST_ACTION_AT uid now).1 = true) :
    on_keyword cfg uid txt now env st =
      ⟨.ok (), { USERS := st.USERS, LAST_ACTION_AT := st.LAST_ACTION_AT,
                 AUDIO_FILE_ID := st.AUDIO_FILE_ID }, []⟩ := by
  have h2 := throttled_rejected_snd hthr
  simp only [on_keyword, hmatch, hthr, h2]
  simp

/-- C10: on both admitted paths the throttle timestamp is recorded at
admission time, before any send is attempted (the state update holds for
every possible send outcome), and it is not rolled back on failure: after
the handler, the user's last-action time equals the admission time, so a
call within the next 5 seconds is rejected. -/
theorem throttle_updated_at_admission (cfg : Config) (st : BotState)
    (uid : ℤ) (now t2 : ℚ) (env : SendEnv)
    (hthr : (throttled st.LAST_ACTION_AT uid now).1 = false) :
    ((on_start cfg uid now env st).state.LAST_ACTION_AT uid = some now)
    ∧ (∀ txt, pyLower (pyStrip txt) = "096" →
        (on_keyword cfg uid txt now env st).state.LAST_ACTION_AT uid = some now)
    ∧ (∀ m2 : ThrottleMap, m2 uid = some now → t2 - now < THROTTLE_SECONDS →
        (throttled m2 uid t2).1 = true) := by
  refine ⟨?_, ?_, ?_⟩
  · rw [on_start_state_LAST, throttled_admitted_snd hthr]
    simp
  · intro txt h
    rw [on_keyword_state_LAST cfg uid txt now env st h,
      throttled_admitted_snd hthr]
    simp
  · intro m2 hm2 hlt
    rw [throttled_fst, hm2]
    simp [hlt]

theorem throttle_updated_at_admission_witness :
    (on_start cfgDemo 1 10 envAudioFail initState).state.LAST_ACTION_AT 1
      = some 10 :=
  (throttle_updated_at_admission cfgDemo initState 1 10 12 envAudioFail
    (throttled_init_pass 1 10 (by norm_num [THROTTLE_SECONDS]))).1

/-- C5: the keyword handler reaches the audio path exactly for texts whose
strip-and-lowercase equals `"096"` (an audio send is then attempted iff the
throttle admits); for any other text the handler returns immediately with no
send and no change to any state. -/
theorem keyword_trigger_iff (cfg : Config) (uid : ℤ) (txt : String)
    (now : ℚ) (env : SendEnv) (st : BotState) :
    (pyLower (pyStrip txt) ≠ "096" →
        on_keyword cfg uid txt now env st = ⟨.ok (), st, []⟩)
    ∧ ((on_keyword cfg uid txt now env st).trace.any Action.isAudioSend = true
        ↔ (pyLower (pyStrip txt) = "096"
            ∧ (throttled st.LAST_ACTION_AT uid now).1 = false)) := by
  constructor
  · intro h
    simp [on_keyword, h]
  · by_cases hm : pyLower (pyStrip txt) = "096"
    · by_cases ht : (throttled st.LAST_ACTION_AT uid now).1 = true
      · rw [on_keyword_throttled_eval cfg uid txt now env st hm ht]
        simp [hm, ht]
      · have ht' : (throttled st.LAST_ACTION_AT uid now).1 = false := by
          cases hh : (throttled st.LAST_ACTION_AT uid now).1 <;> simp_all
        by_cases hc : pyTruthyStr st.AUDIO_FILE_ID = true
        · rw [on_keyword_cached_eval cfg uid txt now env st hm ht' hc]
          cases haud : env.audioRes <;>
            simp [hm, ht', Action.isAudioSend]
        · have hc' : pyTruthyStr st.AUDIO_FILE_ID = false := by
            cases hh : pyTruthyStr st.AUDIO_FILE_ID <;> simp_all
          rw [on_keyword_upload_eval cfg uid txt now env st hm ht' hc']
          cases haud : env.audioRes <;>
            simp [hm, ht', Action.isAudioSend]
    · simp [on_keyword, hm]

theorem keyword_trigger_iff_witness :
    ((on_keyword cfgDemo 1 " 096 " 10 envOkX initState).trace.any
        Action.isAudioSend = true)
    ∧ on_keyword cfgDemo 1 "0960" 10 envOkX initState
        = ⟨.ok (), initState, []⟩ :=
  ⟨(keyword_trigger_iff cfgDemo 1 " 096 " 10 envOkX initState).2.mpr
     ⟨by decide, throttled_init_pass 1 10 (by norm_num [THROTTLE_SECONDS])⟩,
   (keyword_trigger_iff cfgDemo 1 "0960" 10 envOkX initState).1 (by decide)⟩

/-- C6 (amended): the stats command answers with the user count exactly when
a nonzero admin id is configured and the sender is that admin; in every
other case — sender not the admin, no admin configured, or the configured
admin id equal to `0`, which Python's truthiness test treats as unset — it
answers with the denial message.  The state is unchanged. -/
theorem stats_admin_gate (cfg : Config) (uid : ℤ) (env : SendEnv)
    (st : BotState) :
    (on_stats cfg uid env st).trace =
      [Action.sendText (if cfg.admin_id = some uid ∧ uid ≠ 0
                        then statsText st.USERS.card else DENY_TEXT)]
    ∧ (on_stats cfg uid env st).state = st := by
  refine ⟨?_, on_stats_state cfg uid env st⟩
  by_cases hP : cfg.admin_id = some uid ∧ uid ≠ 0
  · obtain ⟨h1, h2⟩ := hP
    have hb : (pyTruthyInt cfg.admin_id && (uid == cfg.admin_id.getD 0))
        = true := by
      rw [h1]
      simp [pyTruthyInt, h2]
    cases htext : env.textRes <;>
      simp only [on_stats, htext, hb] <;>
      simp [h1, h2]
  · have hb : (pyTruthyInt cfg.admin_id && (uid == cfg.admin_id.getD 0))
        = false := by
      rcases hA : cfg.admin_id with _ | a
      · rfl
      · by_cases h0 : a = 0
        · subst h0
          simp [pyTruthyInt]
        · have huid : uid ≠ a := by
            intro h
            exact hP ⟨by rw [hA, h], by rw [h]; exact h0⟩
          simp [pyTruthyInt, h0, huid]
    cases htext : env.textRes <;>
      simp [on_stats, htext, hb, hP]

theorem stats_zero_admin_counterexample :
    load_config (fun k => if k = "BOT_TOKEN" then some "tok"
        else if k = "ADMIN_ID" then some "0" else none)
      = .ok { token := "tok", admin_id := some 0,
              pre_save_url := "https://example.com/presave",
              channel_url := "https://t.me/your_channel",
              audio_path := "audio/096_WARRIOR_hotline_8k_mono.wav" }
    ∧ (on_stats { token := "tok", admin_id := some 0,
                  pre_save_url := "https://example.com/presave",
                  channel_url := "https://t.me/your_channel",
                  audio_path := "audio/096_WARRIOR_hotline_8k_mono.wav" }
        0 envOkX initState).trace
      = [Action.sendText DENY_TEXT]
    ∧ DENY_TEXT ≠ statsText initState.USERS.card := by
  refine ⟨rfl, rfl, ?_⟩
  decide

/-- C8 (amended): when the start handler's audio send fails and a (nonzero)
admin id is configured, the handler attempts the diagnostic send to the
admin, but that send is not guarded: if it fails, its exception propagates
out of the handler instead of being swallowed. -/
theorem admin_notify_failure_propagates (cfg : Config) (st : BotState)
    (uid : ℤ) (now : ℚ) (env : SendEnv) (s e r e3 : String)
    (hthr : (throttled st.LAST_ACTION_AT uid now).1 = false)
    (htext : env.textRes = .ok s) (haud : env.audioRes = .fail e)
    (hretry : env.retryRes = .ok r)
    (hadmincfg : pyTruthyInt cfg.admin_id = true)
    (hadm : env.adminRes = .fail e3) :
    (on_start cfg uid now env st).result = .error e3
    ∧ Action.sendAdmin (cfg.admin_id.getD 0) (audioErrText e)
        ∈ (on_start cfg uid now env st).trace := by
  by_cases hc : pyTruthyStr st.AUDIO_FILE_ID = true
  · rw [on_start_cached_fail cfg uid now env st hthr s htext hc e haud]
    simp [exceptAudio, hretry, hadmincfg, hadm]
  · have hc' : pyTruthyStr st.AUDIO_FILE_ID = false := by
      cases hh : pyTruthyStr st.AUDIO_FILE_ID <;> simp_all
    rw [on_start_upload_fail cfg uid now env st hthr s htext hc' e haud]
    simp [exceptAudio, hretry, hadmincfg, hadm]

theorem admin_notify_failure_propagates_witness :
    (on_start cfgDemo 2 10 envAdminFail initState).result = .error "boom2" :=
  (admin_notify_failure_propagates cfgDemo initState 2 10 envAdminFail
    "" "boom" "" "boom2"
    (throttled_init_pass 2 10 (by norm_num [THROTTLE_SECONDS])) rfl rfl rfl
    (by decide) rfl).1

theorem admin_notify_failure_escapes_counterexample :
    (on_start cfgDemo 1 10 envAdminFail initState).result = .error "boom2"
    ∧ .error "boom2" ≠ (Except.ok () : Except String Unit) := by
  constructor
  · rw [on_start_upload_fail cfgDemo 1 10 envAdminFail initState
      (throttled_init_pass 1 10 (by norm_num [THROTTLE_SECONDS])) "" rfl rfl
      "boom" rfl]
    simp [exceptAudio, envAdminFail, cfgDemo, pyTruthyInt]
  · simp

/-- C9: configuration loading errors out exactly when the stripped bot-token
environment value is empty, in which case startup fails before a client is
ever constructed; on success, the admin id is set exactly when the
(stripped) `ADMIN_ID` value is a digit string, the two URLs fall back to
their fixed defaults when unset, and the audio path is the fixed default. -/
theorem load_config_spec (env : OsEnv) :
    ((∃ m, load_config env = .error m) ↔
      pyStrip (getenv env "BOT_TOKEN" "") = "")
    ∧ (∀ cfg, load_config env = .ok cfg →
        cfg.token = pyStrip (getenv env "BOT_TOKEN" "") ∧ cfg.token ≠ ""
        ∧ cfg.admin_id =
            (if pyIsDigit (pyStrip (getenv env "ADMIN_ID" ""))
             then some (digitsToInt (pyStrip (getenv env "ADMIN_ID" "")))
             else none)
        ∧ (env "PRE_SAVE_URL" = none →
            cfg.pre_save_url = "https://example.com/presave")
        ∧ (env "CHANNEL_URL" = none →
            cfg.channel_url = "https://t.me/your_channel")
        ∧ cfg.audio_path = "audio/096_WARRIOR_hotline_8k_mono.wav")
    ∧ (pyStrip (getenv env "BOT_TOKEN" "") = "" →
        main_startup env = .failed "BOT_TOKEN is not set") := by
  by_cases h : pyStrip (getenv env "BOT_TOKEN" "") = ""
  · refine ⟨by simp [load_config, h], ?_, ?_⟩
    · intro cfg hcfg
      simp [load_config, h] at hcfg
    · intro _
      simp [main_startup, load_config, h]
  · refine ⟨by simp [load_config, h], ?_, fun hh => absurd hh h⟩
    intro cfg hcfg
    simp only [load_config, h, if_false] at hcfg
    cases hcfg
    refine ⟨rfl, h, rfl, ?_, ?_, rfl⟩
    · intro hpre
      simp [getenv, hpre]
    · intro hchan
      simp [getenv, hchan]

theorem load_config_spec_witness :
    (∃ m, load_config (fun _ => none) = .error m)
    ∧ main_startup (fun _ => none) = .failed "BOT_TOKEN is not set" :=
  ⟨(load_config_spec (fun _ => none)).1.mpr (by decide),
   (load_config_spec (fun _ => none)).2.2 (by decide)⟩

theorem load_config_admin_strip_counterexample :
    pyIsDigit " 7 " = false
    ∧ load_config (fun k => if k = "BOT_TOKEN" then some "tok"
        else if k = "ADMIN_ID" then some " 7 " else none)
      = .ok { token := "tok", admin_id := some 7,
              pre_save_url := "https://example.com/presave",
              channel_url := "https://t.me/your_channel",
              audio_path := "audio/096_WARRIOR_hotline_8k_mono.wav" } := by
  constructor
  · decide
  · rfl

end Warrior096
